import Mathlib

/-!
Shallow embedding of `packages/core/src/ChatEngine.ts` (LlamaIndexTS):
the three conversation strategies `SimpleChatEngine`,
`CondenseQuestionChatEngine` and `ContextChatEngine`.

Modelling conventions:
* JavaScript arrays of messages become `List ChatMessage`; `push` becomes
  appending, with the in-place aliasing of `this.chatHistory` made explicit:
  each `achat` returns the engine's owned history after the call
  together with the (possibly mutated) effective history array and the
  result.  When the caller supplies an explicit history override we treat
  the supplied array as distinct from the owned one.
* Every `await` on an external gateway may fail, so each collaborator is a
  function into `Except String _` and `achat` returns `Except String Response`.
* The tracing `Event` token (uuid, type, tags) is threaded only into the
  retriever and chat-model calls and never influences data flow, so it is
  omitted from the model.
-/

namespace LlamaIndex

/-- Role tag of a chat message (`"system" | "user" | "assistant"`). -/
inductive MessageRole where
  | system
  | user
  | assistant
deriving DecidableEq, Repr

/-- `ChatMessage` from `LLM.ts`: `{ content: string, role: MessageRole }`. -/
structure ChatMessage where
  content : String
  role : MessageRole
deriving DecidableEq, Repr

/-- `ChatResponse` from `LLM.ts`: carries the returned assistant message. -/
structure ChatResponse where
  message : ChatMessage
deriving DecidableEq, Repr

/-- `TextNode` from `Node.ts`: a content-bearing unit with a text field. -/
structure TextNode where
  text : String
deriving DecidableEq, Repr

/-- A retrieved `(node, score)` pair as returned by `BaseRetriever.aretrieve`.
The score is never inspected by `ChatEngine.ts`, so an integer stands in for
the numeric relevance. -/
structure NodeWithScore where
  node : TextNode
  score : Int
deriving DecidableEq, Repr

/-- Modelled from the spec: `Response` (Response.ts is not under src/) —
`{text: string, sourceItems: ordered sequence of nodes (possibly empty)}`.
`ChatEngine.ts` reads the text field as `.response` (line 100) and builds it
with `new Response(content)` or `new Response(content, sourceNodes)`. -/
structure Response where
  response : String
  sourceNodes : List TextNode
deriving DecidableEq, Repr

/-- A prompt template `SimplePrompt` (`(input: Record<string, string>) => string`):
a function from variable bindings to the rendered prompt string. -/
def SimplePrompt : Type := List (String × String) → String

/-- Record lookup on the variable bindings (missing variables render empty). -/
def lookupVar (vars : List (String × String)) (k : String) : String :=
  ((vars.find? (fun p => p.1 = k)).map Prod.snd).getD ""

/-- Render a role tag the way the history formatter prints it. -/
def MessageRole.toText : MessageRole → String
  | .system => "system"
  | .user => "user"
  | .assistant => "assistant"

/-- Modelled from the spec: `messagesToHistoryStr` (Prompt.ts is not under
src/) — each message formatted as "`role`: `content`", newline-joined. -/
def messagesToHistoryStr (messages : List ChatMessage) : String :=
  String.intercalate "\n"
    (messages.map (fun m => m.role.toText ++ ": " ++ m.content))

/-- Modelled from the spec: `defaultCondenseQuestionPrompt` (Prompt.ts is not
under src/) — the default condensation prompt template combining the prior
turns and the new message into one rewriting instruction. -/
def defaultCondenseQuestionPrompt : SimplePrompt := fun vars =>
  "Given the following conversation and a follow up question, " ++
  "rephrase the follow up question to be a standalone question.\n" ++
  "Chat history:\n" ++ lookupVar vars "chat_history" ++
  "\nFollow up question: " ++ lookupVar vars "question" ++
  "\nStandalone question:"

/-- Modelled from the spec: `contextSystemPrompt` (Prompt.ts is not under
src/) — renders the retrieved context into a system-prompt template; the
context block is exactly the `context` variable. -/
def contextSystemPrompt : SimplePrompt := fun vars =>
  "Context information is below.\n---------------------\n" ++
  lookupVar vars "context" ++
  "\n---------------------\n" ++
  "Given the context information, answer the query."

/-- An opaque language-model text-prediction oracle: given the rendered
template and the two variables, it produces the model's output or fails. -/
def PredictOracle : Type :=
  SimplePrompt → String → String → Except String String

/-- Modelled from the spec: `LLMPredictor.apredict` (LLMPredictor is not
under src/) — `apredict(promptTemplate, {question, chat_history}) -> string`,
single-shot and stateless, with the documented pass-through policy: when no
prior turns exist (the rendered chat history is empty) the output equals the
question verbatim; otherwise the output is the opaque model's answer. -/
def llmPredictorApredict (oracle : PredictOracle) (prompt : SimplePrompt)
    (question chatHistoryStr : String) : Except String String :=
  if chatHistoryStr = "" then .ok question
  else oracle prompt question chatHistoryStr

/-! ## SimpleChatEngine (Direct strategy) -/

/-- The mutable state of a `SimpleChatEngine` instance: its owned history.
The collaborating `llm` is immutable after construction and is passed to the
operations as a function. -/
structure SimpleState where
  chatHistory : List ChatMessage
deriving DecidableEq, Repr

/-- The Completion Gateway capability: `llm.achat(messages) -> ChatResponse`. -/
def LLMGateway : Type := List ChatMessage → Except String ChatResponse

/-- `SimpleChatEngine.achat(message, chatHistory?)` (ChatEngine.ts lines
37-44).  Returns the engine state after the call, the contents of the
effective history array after the call (the caller's array when an override
was supplied), and the outcome.  A gateway failure aborts after the user
push: the push already mutated the aliased owned array when no override was
given, while with an override the owned reference is only replaced on the
line after the successful gateway call. -/
def SimpleChatEngine.achat (llm : LLMGateway) (s : SimpleState)
    (message : String) (chatHistoryArg : Option (List ChatMessage)) :
    (SimpleState × List ChatMessage) × Except String Response :=
  let chatHistory := chatHistoryArg.getD s.chatHistory
  let chatHistory := chatHistory ++ [⟨message, .user⟩]
  match llm chatHistory with
  | .error e =>
      let owned := match chatHistoryArg with
        | none => chatHistory
        | some _ => s.chatHistory
      ((⟨owned⟩, chatHistory), .error e)
  | .ok response =>
      let chatHistory := chatHistory ++ [response.message]
      ((⟨chatHistory⟩, chatHistory), .ok ⟨response.message.content, []⟩)

/-- `SimpleChatEngine.reset()` (lines 46-48): `this.chatHistory = []`. -/
def SimpleChatEngine.reset (_s : SimpleState) : SimpleState :=
  ⟨[]⟩

/-! ## CondenseQuestionChatEngine (Condense-then-Query strategy) -/

/-- The mutable state of a `CondenseQuestionChatEngine` instance: its owned
history.  `queryEngine`, `serviceContext` and `condenseMessagePrompt` are
immutable after construction and passed to the operations. -/
structure CondenseState where
  chatHistory : List ChatMessage
deriving DecidableEq, Repr

/-- The Query Engine capability: `aquery(query) -> Response`. -/
def QueryEngine : Type := String → Except String Response

/-- `CondenseQuestionChatEngine.acondenseQuestion(chatHistory, question)`
(lines 71-84).  Note that the source passes `defaultCondenseQuestionPrompt`
to `apredict`, not the configured `condenseMessagePrompt` field; the field is
kept as a parameter here to mirror the construction-time configuration. -/
def CondenseQuestionChatEngine.acondenseQuestion (oracle : PredictOracle)
    (_condenseMessagePrompt : SimplePrompt)
    (chatHistory : List ChatMessage) (question : String) :
    Except String String :=
  let chatHistoryStr := messagesToHistoryStr chatHistory
  llmPredictorApredict oracle defaultCondenseQuestionPrompt
    question chatHistoryStr

/-- `CondenseQuestionChatEngine.achat(message, chatHistory?)` (lines
86-103).  Condense, query, then push the original user message and the
assistant answer.  Both awaits precede every push, so a failure of either
leaves every history array untouched.  On success the pushes mutate the
aliased owned array when no override was supplied; this engine never
reassigns `this.chatHistory`, so with an override the owned history is
unchanged. -/
def CondenseQuestionChatEngine.achat (oracle : PredictOracle)
    (condenseMessagePrompt : SimplePrompt) (queryEngine : QueryEngine)
    (s : CondenseState) (message : String)
    (chatHistoryArg : Option (List ChatMessage)) :
    (CondenseState × List ChatMessage) × Except String Response :=
  let chatHistory := chatHistoryArg.getD s.chatHistory
  match CondenseQuestionChatEngine.acondenseQuestion oracle
      condenseMessagePrompt chatHistory message with
  | .error e => ((s, chatHistory), .error e)
  | .ok condensedQuestion =>
    match queryEngine condensedQuestion with
    | .error e => ((s, chatHistory), .error e)
    | .ok response =>
      let chatHistory := chatHistory ++
        [⟨message, .user⟩, ⟨response.response, .assistant⟩]
      let owned := match chatHistoryArg with
        | none => chatHistory
        | some _ => s.chatHistory
      ((⟨owned⟩, chatHistory), .ok response)

/-- `CondenseQuestionChatEngine.reset()` (lines 109-111). -/
def CondenseQuestionChatEngine.reset (_s : CondenseState) : CondenseState :=
  ⟨[]⟩

/-! ## ContextChatEngine (Context-Augmented strategy) -/

/-- The mutable state of a `ContextChatEngine` instance: its owned history.
`retriever` and `chatModel` are immutable after construction and passed to
the operations. -/
structure ContextState where
  chatHistory : List ChatMessage
deriving DecidableEq, Repr

/-- The Retriever Gateway capability: `aretrieve(query) -> NodeWithScore[]`,
ranked best-first. -/
def Retriever : Type := String → Except String (List NodeWithScore)

/-- The system message assembled by `ContextChatEngine.achat` (lines
147-154): the retrieved node texts joined with a blank-line separator and
rendered through the context system-prompt template. -/
def ContextChatEngine.systemMessage (sourceNodesWithScore : List NodeWithScore) :
    ChatMessage :=
  ⟨contextSystemPrompt
      [("context",
        String.intercalate "\n\n"
          (sourceNodesWithScore.map (fun r => r.node.text)))],
   .system⟩

/-- `ContextChatEngine.achat(message, chatHistory?)` (lines 134-170).
Retrieve first, assemble the system message, push the user message, call the
chat model on `[systemMessage, ...chatHistory]` (a fresh array — the system
message is never pushed into the history), push the assistant reply, and
reassign the owned reference. -/
def ContextChatEngine.achat (retriever : Retriever) (chatModel : LLMGateway)
    (s : ContextState) (message : String)
    (chatHistoryArg : Option (List ChatMessage)) :
    (ContextState × List ChatMessage) × Except String Response :=
  let chatHistory := chatHistoryArg.getD s.chatHistory
  match retriever message with
  | .error e => ((s, chatHistory), .error e)
  | .ok sourceNodesWithScore =>
    let systemMessage := ContextChatEngine.systemMessage sourceNodesWithScore
    let chatHistory := chatHistory ++ [⟨message, .user⟩]
    match chatModel (systemMessage :: chatHistory) with
    | .error e =>
        let owned := match chatHistoryArg with
          | none => chatHistory
          | some _ => s.chatHistory
        ((⟨owned⟩, chatHistory), .error e)
    | .ok response =>
        let chatHistory := chatHistory ++ [response.message]
        ((⟨chatHistory⟩, chatHistory),
         .ok ⟨response.message.content,
              sourceNodesWithScore.map (fun r => r.node)⟩)

/-- `ContextChatEngine.reset()` (lines 172-174). -/
def ContextChatEngine.reset (_s : ContextState) : ContextState :=
  ⟨[]⟩

/-! ## Concrete collaborators used to instantiate the theorems -/

/-- A completion gateway that always answers with the given content. -/
def constLLM (c : String) : LLMGateway :=
  fun _ => .ok ⟨⟨c, .assistant⟩⟩

/-- A completion gateway that always fails. -/
def failLLM : LLMGateway :=
  fun _ => .error "gateway down"

/-- A query engine that always returns the given response. -/
def constQueryEngine (r : Response) : QueryEngine :=
  fun _ => .ok r

/-- A query engine that always fails. -/
def failQueryEngine : QueryEngine :=
  fun _ => .error "gateway down"

/-- A retriever that always returns the given ranked items. -/
def constRetriever (items : List NodeWithScore) : Retriever :=
  fun _ => .ok items

/-- A retriever that always fails. -/
def failRetriever : Retriever :=
  fun _ => .error "gateway down"

/-- A prediction oracle that answers with the rendered template itself,
exposing which template `apredict` was handed. -/
def renderingOracle : PredictOracle :=
  fun t q h => .ok (t [("question", q), ("chat_history", h)])

/-- A prediction oracle that always fails. -/
def failOracle : PredictOracle :=
  fun _ _ _ => .error "gateway down"

/-- A non-default condensation prompt template, distinguishable from
`defaultCondenseQuestionPrompt` on every input. -/
def customPrompt : SimplePrompt :=
  fun vars => "CUSTOM " ++ lookupVar vars "question"

/-! ## Unfolding lemmas for the three `achat` operations -/

theorem simple_achat_none_ok (llm : LLMGateway) (s : SimpleState) (m : String)
    (r : ChatResponse) (h : llm (s.chatHistory ++ [⟨m, .user⟩]) = .ok r) :
    SimpleChatEngine.achat llm s m none =
      ((⟨s.chatHistory ++ [⟨m, .user⟩] ++ [r.message]⟩,
        s.chatHistory ++ [⟨m, .user⟩] ++ [r.message]),
       .ok ⟨r.message.content, []⟩) := by
  simp [SimpleChatEngine.achat, h]

theorem simple_achat_none_error (llm : LLMGateway) (s : SimpleState)
    (m : String) (e : String)
    (h : llm (s.chatHistory ++ [⟨m, .user⟩]) = .error e) :
    SimpleChatEngine.achat llm s m none =
      ((⟨s.chatHistory ++ [⟨m, .user⟩]⟩, s.chatHistory ++ [⟨m, .user⟩]),
       .error e) := by
  simp [SimpleChatEngine.achat, h]

theorem simple_achat_some_ok (llm : LLMGateway) (s : SimpleState) (m : String)
    (h0 : List ChatMessage) (r : ChatResponse)
    (h : llm (h0 ++ [⟨m, .user⟩]) = .ok r) :
    SimpleChatEngine.achat llm s m (some h0) =
      ((⟨h0 ++ [⟨m, .user⟩] ++ [r.message]⟩, h0 ++ [⟨m, .user⟩] ++ [r.message]),
       .ok ⟨r.message.content, []⟩) := by
  simp [SimpleChatEngine.achat, h]

theorem condense_achat_none_ok (oracle : PredictOracle) (cmp : SimplePrompt)
    (qe : QueryEngine) (s : CondenseState) (m cq : String) (resp : Response)
    (hc : CondenseQuestionChatEngine.acondenseQuestion oracle cmp
        s.chatHistory m = .ok cq)
    (hq : qe cq = .ok resp) :
    CondenseQuestionChatEngine.achat oracle cmp qe s m none =
      ((⟨s.chatHistory ++ [⟨m, .user⟩, ⟨resp.response, .assistant⟩]⟩,
        s.chatHistory ++ [⟨m, .user⟩, ⟨resp.response, .assistant⟩]),
       .ok resp) := by
  simp [CondenseQuestionChatEngine.achat, hc, hq]

theorem condense_achat_none_error_condense (oracle : PredictOracle)
    (cmp : SimplePrompt) (qe : QueryEngine) (s : CondenseState) (m e : String)
    (hc : CondenseQuestionChatEngine.acondenseQuestion oracle cmp
        s.chatHistory m = .error e) :
    CondenseQuestionChatEngine.achat oracle cmp qe s m none =
      ((s, s.chatHistory), .error e) := by
  simp [CondenseQuestionChatEngine.achat, hc]

theorem condense_achat_none_error_query (oracle : PredictOracle)
    (cmp : SimplePrompt) (qe : QueryEngine) (s : CondenseState)
    (m cq e : String)
    (hc : CondenseQuestionChatEngine.acondenseQuestion oracle cmp
        s.chatHistory m = .ok cq)
    (hq : qe cq = .error e) :
    CondenseQuestionChatEngine.achat oracle cmp qe s m none =
      ((s, s.chatHistory), .error e) := by
  simp [CondenseQuestionChatEngine.achat, hc, hq]

theorem condense_achat_some_ok (oracle : PredictOracle) (cmp : SimplePrompt)
    (qe : QueryEngine) (s : CondenseState) (h0 : List ChatMessage)
    (m cq : String) (resp : Response)
    (hc : CondenseQuestionChatEngine.acondenseQuestion oracle cmp h0 m =
        .ok cq)
    (hq : qe cq = .ok resp) :
    CondenseQuestionChatEngine.achat oracle cmp qe s m (some h0) =
      ((s, h0 ++ [⟨m, .user⟩, ⟨resp.response, .assistant⟩]), .ok resp) := by
  simp [CondenseQuestionChatEngine.achat, hc, hq]

theorem context_achat_none_ok (retriever : Retriever)
    (chatModel : LLMGateway) (s : ContextState) (m : String)
    (items : List NodeWithScore) (r : ChatResponse)
    (hr : retriever m = .ok items)
    (hc : chatModel (ContextChatEngine.systemMessage items ::
        (s.chatHistory ++ [⟨m, .user⟩])) = .ok r) :
    ContextChatEngine.achat retriever chatModel s m none =
      ((⟨s.chatHistory ++ [⟨m, .user⟩] ++ [r.message]⟩,
        s.chatHistory ++ [⟨m, .user⟩] ++ [r.message]),
       .ok ⟨r.message.content, items.map (fun x => x.node)⟩) := by
  simp [ContextChatEngine.achat, hr, hc]

theorem context_achat_none_error_retrieve (retriever : Retriever)
    (chatModel : LLMGateway) (s : ContextState) (m e : String)
    (hr : retriever m = .error e) :
    ContextChatEngine.achat retriever chatModel s m none =
      ((s, s.chatHistory), .error e) := by
  simp [ContextChatEngine.achat, hr]

theorem context_achat_none_error_chat (retriever : Retriever)
    (chatModel : LLMGateway) (s : ContextState) (m e : String)
    (items : List NodeWithScore)
    (hr : retriever m = .ok items)
    (hc : chatModel (ContextChatEngine.systemMessage items ::
        (s.chatHistory ++ [⟨m, .user⟩])) = .error e) :
    ContextChatEngine.achat retriever chatModel s m none =
      ((⟨s.chatHistory ++ [⟨m, .user⟩]⟩, s.chatHistory ++ [⟨m, .user⟩]),
       .error e) := by
  simp [ContextChatEngine.achat, hr, hc]

theorem context_achat_some_ok (retriever : Retriever)
    (chatModel : LLMGateway) (s : ContextState) (m : String)
    (h0 : List ChatMessage) (items : List NodeWithScore) (r : ChatResponse)
    (hr : retriever m = .ok items)
    (hc : chatModel (ContextChatEngine.systemMessage items ::
        (h0 ++ [⟨m, .user⟩])) = .ok r) :
    ContextChatEngine.achat retriever chatModel s m (some h0) =
      ((⟨h0 ++ [⟨m, .user⟩] ++ [r.message]⟩, h0 ++ [⟨m, .user⟩] ++ [r.message]),
       .ok ⟨r.message.content, items.map (fun x => x.node)⟩) := by
  simp [ContextChatEngine.achat, hr, hc]

/-! ## Claims -/

/-- C1: In the Condense-then-Query strategy, for every message `m`, if the
history passed to `achat` is empty, the output of the condensation step
equals `m` verbatim, and the question passed on to the Query Engine's
`aquery` is exactly `m` (the `achat` outcome is exactly the query engine's
outcome on `m`). -/
theorem condense_empty_history_passthrough (oracle : PredictOracle)
    (cmp : SimplePrompt) (qe : QueryEngine) (m : String) :
    CondenseQuestionChatEngine.acondenseQuestion oracle cmp [] m = .ok m ∧
    (CondenseQuestionChatEngine.achat oracle cmp qe ⟨[]⟩ m none).2 = qe m := by
  have hc : CondenseQuestionChatEngine.acondenseQuestion oracle cmp [] m
      = .ok m := rfl
  refine ⟨hc, ?_⟩
  simp only [CondenseQuestionChatEngine.achat, Option.getD, hc]
  cases hq : qe m <;> simp [hq]

/-- C2: For every strategy, after a successful `achat(m)` the owned History
ends with exactly {role=user, content=m} followed by {role=assistant,
content=the gateway's returned content}; in the Condense-then-Query strategy
the recorded user entry is the original `m`, not the condensed question. -/
theorem achat_records_user_then_assistant :
    (∀ (llm : LLMGateway) (s : SimpleState) (m : String) (r : ChatResponse),
      llm (s.chatHistory ++ [⟨m, .user⟩]) = .ok r →
      r.message.role = .assistant →
      (SimpleChatEngine.achat llm s m none).1.1.chatHistory =
        s.chatHistory ++ [⟨m, .user⟩, ⟨r.message.content, .assistant⟩]) ∧
    (∀ (oracle : PredictOracle) (cmp : SimplePrompt) (qe : QueryEngine)
      (s : CondenseState) (m cq : String) (resp : Response),
      CondenseQuestionChatEngine.acondenseQuestion oracle cmp
        s.chatHistory m = .ok cq →
      qe cq = .ok resp →
      (CondenseQuestionChatEngine.achat oracle cmp qe s m none).1.1.chatHistory
        = s.chatHistory ++ [⟨m, .user⟩, ⟨resp.response, .assistant⟩]) ∧
    (∀ (retriever : Retriever) (chatModel : LLMGateway) (s : ContextState)
      (m : String) (items : List NodeWithScore) (r : ChatResponse),
      retriever m = .ok items →
      chatModel (ContextChatEngine.systemMessage items ::
        (s.chatHistory ++ [⟨m, .user⟩])) = .ok r →
      r.message.role = .assistant →
      (ContextChatEngine.achat retriever chatModel s m none).1.1.chatHistory =
        s.chatHistory ++ [⟨m, .user⟩, ⟨r.message.content, .assistant⟩]) := by
  refine ⟨?_, ?_, ?_⟩
  · intro llm s m r hllm hrole
    obtain ⟨⟨c, role⟩⟩ := r
    simp only [ChatMessage.role] at hrole
    subst hrole
    rw [simple_achat_none_ok llm s m _ hllm]
    simp
  · intro oracle cmp qe s m cq resp hc hq
    rw [condense_achat_none_ok oracle cmp qe s m cq resp hc hq]
  · intro retriever chatModel s m items r hr hc hrole
    obtain ⟨⟨c, role⟩⟩ := r
    simp only [ChatMessage.role] at hrole
    subst hrole
    rw [context_achat_none_ok retriever chatModel s m items _ hr hc]
    simp

/-- Witness for C2: all three strategies at concrete collaborators. -/
theorem achat_records_user_then_assistant_witness :
    (SimpleChatEngine.achat (constLLM "hello") ⟨[]⟩ "hi" none).1.1.chatHistory
      = [⟨"hi", .user⟩, ⟨"hello", .assistant⟩] ∧
    (CondenseQuestionChatEngine.achat renderingOracle customPrompt
        (constQueryEngine ⟨"Paris.", []⟩) ⟨[]⟩ "What is X?"
        none).1.1.chatHistory =
      [⟨"What is X?", .user⟩, ⟨"Paris.", .assistant⟩] ∧
    (ContextChatEngine.achat (constRetriever []) (constLLM "ok") ⟨[]⟩ "hi"
        none).1.1.chatHistory =
      [⟨"hi", .user⟩, ⟨"ok", .assistant⟩] :=
  ⟨achat_records_user_then_assistant.1 (constLLM "hello") ⟨[]⟩ "hi"
      ⟨⟨"hello", .assistant⟩⟩ rfl rfl,
   achat_records_user_then_assistant.2.1 renderingOracle customPrompt
      (constQueryEngine ⟨"Paris.", []⟩) ⟨[]⟩ "What is X?" "What is X?"
      ⟨"Paris.", []⟩ rfl rfl,
   achat_records_user_then_assistant.2.2 (constRetriever []) (constLLM "ok")
      ⟨[]⟩ "hi" [] ⟨⟨"ok", .assistant⟩⟩ rfl rfl rfl⟩

/-- C3: In the Context-Augmented strategy the system message built from
retrieved context is prepended only to the fresh sequence passed to the
Completion Gateway; given that the gateway itself only returns assistant
messages, a History with no system message before `achat` has no system
message after it (in every outcome of the call). -/
theorem context_system_message_never_persisted (retriever : Retriever)
    (chatModel : LLMGateway) (s : ContextState) (m : String)
    (hown : ∀ msg ∈ s.chatHistory, msg.role ≠ .system)
    (hllm : ∀ msgs r, chatModel msgs = .ok r → r.message.role = .assistant) :
    ∀ msg ∈ (ContextChatEngine.achat retriever chatModel s m
        none).1.1.chatHistory, msg.role ≠ .system := by
  intro msg hmsg
  cases hr : retriever m with
  | error e =>
      rw [context_achat_none_error_retrieve retriever chatModel s m e hr]
        at hmsg
      exact hown msg hmsg
  | ok items =>
      cases hc : chatModel (ContextChatEngine.systemMessage items ::
          (s.chatHistory ++ [⟨m, .user⟩])) with
      | error e =>
          rw [context_achat_none_error_chat retriever chatModel s m e items
            hr hc] at hmsg
          simp only [List.mem_append, List.mem_singleton] at hmsg
          rcases hmsg with h | h
          · exact hown msg h
          · subst h
            simp
      | ok r =>
          rw [context_achat_none_ok retriever chatModel s m items r hr hc]
            at hmsg
          have hrole := hllm _ _ hc
          rcases List.mem_append.mp hmsg with h12 | h3
          · rcases List.mem_append.mp h12 with h | h
            · exact hown msg h
            · rw [List.mem_singleton] at h
              subst h
              simp
          · rw [List.mem_singleton] at h3
            subst h3
            rw [hrole]
            simp

/-- Witness for C3 at a concrete retriever, gateway, state and message: the
user message just recorded by the call is itself not a system message. -/
theorem context_system_message_never_persisted_witness :
    ChatMessage.role ⟨"What is the capital of France?", .user⟩ ≠ .system :=
  context_system_message_never_persisted
    (constRetriever [⟨⟨"Paris is the capital of France"⟩, 9⟩])
    (constLLM "Paris.") ⟨[⟨"hi", .user⟩, ⟨"hello", .assistant⟩]⟩
    "What is the capital of France?" (by decide)
    (fun _ r h => by
      simp only [constLLM, Except.ok.injEq] at h
      rw [← h])
    ⟨"What is the capital of France?", .user⟩ (by decide)

/-- C4: The source of `acondenseQuestion` (ChatEngine.ts line 78) passes
`defaultCondenseQuestionPrompt` to `apredict`, ignoring the configured
`condenseMessagePrompt` field: at a construction that supplies a custom
template and a non-empty history, the condensation call renders the default
template, not the supplied one. -/
theorem condense_prompt_configuration_ignored :
    CondenseQuestionChatEngine.acondenseQuestion renderingOracle customPrompt
        [⟨"a", .user⟩] "q" =
      .ok (defaultCondenseQuestionPrompt
        [("question", "q"), ("chat_history", "user: a")]) ∧
    CondenseQuestionChatEngine.acondenseQuestion renderingOracle customPrompt
        [⟨"a", .user⟩] "q" ≠
      .ok (customPrompt
        [("question", "q"), ("chat_history", "user: a")]) := by
  have hA : CondenseQuestionChatEngine.acondenseQuestion renderingOracle
      customPrompt [⟨"a", .user⟩] "q" =
      .ok (defaultCondenseQuestionPrompt
        [("question", "q"), ("chat_history", "user: a")]) := rfl
  refine ⟨hA, fun h => ?_⟩
  rw [hA] at h
  exact absurd (Except.ok.inj h) (by decide)

/-- C5: In the Context-Augmented strategy, a successful `achat` returns
source items equal to the retrieved nodes in the exact rank order returned
by the retriever, with the response text taken from the Completion Gateway's
answer on the assembled request (so the gateway is invoked even when
retrieval is empty); when the retriever returns an empty sequence the
composed system message carries an empty context block. -/
theorem context_source_items_rank_order (retriever : Retriever)
    (chatModel : LLMGateway) (s : ContextState) (m : String)
    (items : List NodeWithScore) (r : ChatResponse)
    (hr : retriever m = .ok items)
    (hc : chatModel (ContextChatEngine.systemMessage items ::
        (s.chatHistory ++ [⟨m, .user⟩])) = .ok r) :
    (ContextChatEngine.achat retriever chatModel s m none).2 =
      .ok ⟨r.message.content, items.map (fun x => x.node)⟩ ∧
    (items = [] →
      ContextChatEngine.systemMessage items =
        ⟨contextSystemPrompt [("context", "")], .system⟩) := by
  refine ⟨?_, fun hitems => ?_⟩
  · rw [context_achat_none_ok retriever chatModel s m items r hr hc]
  · subst hitems
    rfl

/-- Witness for C5: an empty retrieval still reaches the gateway with an
empty context block, and a two-item retrieval is reported in rank order. -/
theorem context_source_items_rank_order_witness :
    (ContextChatEngine.achat (constRetriever []) (constLLM "ok") ⟨[]⟩ "hi"
        none).2 = .ok ⟨"ok", []⟩ ∧
    ContextChatEngine.systemMessage [] =
      ⟨contextSystemPrompt [("context", "")], .system⟩ ∧
    (ContextChatEngine.achat (constRetriever [⟨⟨"A"⟩, 9⟩, ⟨⟨"B"⟩, 5⟩])
        (constLLM "ok") ⟨[]⟩ "hi" none).2 =
      .ok ⟨"ok", [⟨"A"⟩, ⟨"B"⟩]⟩ :=
  ⟨(context_source_items_rank_order (constRetriever []) (constLLM "ok") ⟨[]⟩
      "hi" [] ⟨⟨"ok", .assistant⟩⟩ rfl rfl).1,
   (context_source_items_rank_order (constRetriever []) (constLLM "ok") ⟨[]⟩
      "hi" [] ⟨⟨"ok", .assistant⟩⟩ rfl rfl).2 rfl,
   (context_source_items_rank_order
      (constRetriever [⟨⟨"A"⟩, 9⟩, ⟨⟨"B"⟩, 5⟩]) (constLLM "ok") ⟨[]⟩
      "hi" [⟨⟨"A"⟩, 9⟩, ⟨⟨"B"⟩, 5⟩] ⟨⟨"ok", .assistant⟩⟩ rfl rfl).1⟩

/-- C6: A failing gateway call aborts the turn before any assistant message
is appended: in the Direct strategy a completion failure leaves exactly the
user message persisted; in the Context-Augmented strategy a retrieval
failure leaves History unchanged and a completion failure leaves exactly the
user message persisted; in the Condense-then-Query strategy a failure of
either the condensation or the query leaves History entirely unchanged. -/
theorem gateway_failure_aborts_before_assistant_append :
    (∀ (llm : LLMGateway) (s : SimpleState) (m e : String),
      llm (s.chatHistory ++ [⟨m, .user⟩]) = .error e →
      SimpleChatEngine.achat llm s m none =
        ((⟨s.chatHistory ++ [⟨m, .user⟩]⟩, s.chatHistory ++ [⟨m, .user⟩]),
         .error e)) ∧
    (∀ (retriever : Retriever) (chatModel : LLMGateway) (s : ContextState)
      (m e : String),
      retriever m = .error e →
      ContextChatEngine.achat retriever chatModel s m none =
        ((s, s.chatHistory), .error e)) ∧
    (∀ (retriever : Retriever) (chatModel : LLMGateway) (s : ContextState)
      (m e : String) (items : List NodeWithScore),
      retriever m = .ok items →
      chatModel (ContextChatEngine.systemMessage items ::
        (s.chatHistory ++ [⟨m, .user⟩])) = .error e →
      ContextChatEngine.achat retriever chatModel s m none =
        ((⟨s.chatHistory ++ [⟨m, .user⟩]⟩, s.chatHistory ++ [⟨m, .user⟩]),
         .error e)) ∧
    (∀ (oracle : PredictOracle) (cmp : SimplePrompt) (qe : QueryEngine)
      (s : CondenseState) (m e : String),
      CondenseQuestionChatEngine.acondenseQuestion oracle cmp
        s.chatHistory m = .error e →
      CondenseQuestionChatEngine.achat oracle cmp qe s m none =
        ((s, s.chatHistory), .error e)) ∧
    (∀ (oracle : PredictOracle) (cmp : SimplePrompt) (qe : QueryEngine)
      (s : CondenseState) (m cq e : String),
      CondenseQuestionChatEngine.acondenseQuestion oracle cmp
        s.chatHistory m = .ok cq →
      qe cq = .error e →
      CondenseQuestionChatEngine.achat oracle cmp qe s m none =
        ((s, s.chatHistory), .error e)) :=
  ⟨fun llm s m e h => simple_achat_none_error llm s m e h,
   fun retriever chatModel s m e h =>
     context_achat_none_error_retrieve retriever chatModel s m e h,
   fun retriever chatModel s m e items hr hc =>
     context_achat_none_error_chat retriever chatModel s m e items hr hc,
   fun oracle cmp qe s m e hc =>
     condense_achat_none_error_condense oracle cmp qe s m e hc,
   fun oracle cmp qe s m cq e hc hq =>
     condense_achat_none_error_query oracle cmp qe s m cq e hc hq⟩

/-- Witness for C6: each failure branch at concrete failing collaborators. -/
theorem gateway_failure_aborts_witness :
    SimpleChatEngine.achat failLLM ⟨[]⟩ "hi" none =
      ((⟨[⟨"hi", .user⟩]⟩, [⟨"hi", .user⟩]), .error "gateway down") ∧
    ContextChatEngine.achat failRetriever (constLLM "ok") ⟨[]⟩ "hi" none =
      ((⟨[]⟩, []), .error "gateway down") ∧
    ContextChatEngine.achat (constRetriever []) failLLM ⟨[]⟩ "hi" none =
      ((⟨[⟨"hi", .user⟩]⟩, [⟨"hi", .user⟩]), .error "gateway down") ∧
    CondenseQuestionChatEngine.achat failOracle customPrompt
        (constQueryEngine ⟨"ok", []⟩) ⟨[⟨"a", .user⟩]⟩ "q" none =
      ((⟨[⟨"a", .user⟩]⟩, [⟨"a", .user⟩]), .error "gateway down") ∧
    CondenseQuestionChatEngine.achat renderingOracle customPrompt
        failQueryEngine ⟨[]⟩ "q" none =
      ((⟨[]⟩, []), .error "gateway down") :=
  ⟨gateway_failure_aborts_before_assistant_append.1 failLLM ⟨[]⟩ "hi"
      "gateway down" rfl,
   gateway_failure_aborts_before_assistant_append.2.1 failRetriever
      (constLLM "ok") ⟨[]⟩ "hi" "gateway down" rfl,
   gateway_failure_aborts_before_assistant_append.2.2.1 (constRetriever [])
      failLLM ⟨[]⟩ "hi" "gateway down" [] rfl rfl,
   gateway_failure_aborts_before_assistant_append.2.2.2.1 failOracle
      customPrompt (constQueryEngine ⟨"ok", []⟩) ⟨[⟨"a", .user⟩]⟩ "q"
      "gateway down" rfl,
   gateway_failure_aborts_before_assistant_append.2.2.2.2 renderingOracle
      customPrompt failQueryEngine ⟨[]⟩ "q" "q" "gateway down" rfl rfl⟩

/-- C7: Two sequential Direct-strategy calls starting from an empty owned
History: the second call's gateway request is the three-message sequence
user `m1`, assistant reply, user `m2`, and the second call's outcome is the
gateway's answer on exactly that sequence. -/
theorem direct_two_turns_full_history (llm : LLMGateway) (m1 m2 : String)
    (r1 r2 : ChatResponse)
    (h1 : llm [⟨m1, .user⟩] = .ok r1)
    (hrole : r1.message.role = .assistant)
    (h2 : llm [⟨m1, .user⟩, ⟨r1.message.content, .assistant⟩, ⟨m2, .user⟩]
      = .ok r2) :
    (SimpleChatEngine.achat llm ⟨[]⟩ m1 none).1.1.chatHistory ++
        [⟨m2, .user⟩] =
      [⟨m1, .user⟩, ⟨r1.message.content, .assistant⟩, ⟨m2, .user⟩] ∧
    (SimpleChatEngine.achat llm
        (SimpleChatEngine.achat llm ⟨[]⟩ m1 none).1.1 m2 none).2 =
      .ok ⟨r2.message.content, []⟩ := by
  obtain ⟨⟨c1, role1⟩⟩ := r1
  simp only [ChatMessage.role] at hrole
  subst hrole
  have e1 := simple_achat_none_ok llm ⟨[]⟩ m1 ⟨⟨c1, .assistant⟩⟩ h1
  refine ⟨?_, ?_⟩
  · rw [e1]
    simp
  · rw [e1]
    simp only at h2
    simp [SimpleChatEngine.achat, h2]

/-- Witness for C7 at a concrete gateway and the spec's scenario messages. -/
theorem direct_two_turns_full_history_witness :
    (SimpleChatEngine.achat (constLLM "hello") ⟨[]⟩ "hi" none).1.1.chatHistory
        ++ [⟨"how are you?", .user⟩] =
      [⟨"hi", .user⟩, ⟨"hello", .assistant⟩, ⟨"how are you?", .user⟩] ∧
    (SimpleChatEngine.achat (constLLM "hello")
        (SimpleChatEngine.achat (constLLM "hello") ⟨[]⟩ "hi" none).1.1
        "how are you?" none).2 = .ok ⟨"hello", []⟩ :=
  direct_two_turns_full_history (constLLM "hello") "hi" "how are you?"
    ⟨⟨"hello", .assistant⟩⟩ ⟨⟨"hello", .assistant⟩⟩ rfl rfl rfl

/-- C10: With an explicit history override, a successful `achat` in the
Direct and Context-Augmented strategies replaces the owned History with the
mutated supplied sequence, while the Condense-then-Query strategy mutates
the supplied sequence but leaves its owned History untouched. -/
theorem history_override_reference_semantics :
    (∀ (llm : LLMGateway) (s : SimpleState) (m : String)
      (h0 : List ChatMessage) (r : ChatResponse),
      llm (h0 ++ [⟨m, .user⟩]) = .ok r →
      (SimpleChatEngine.achat llm s m (some h0)).1.1.chatHistory =
        h0 ++ [⟨m, .user⟩] ++ [r.message] ∧
      (SimpleChatEngine.achat llm s m (some h0)).1.2 =
        h0 ++ [⟨m, .user⟩] ++ [r.message]) ∧
    (∀ (retriever : Retriever) (chatModel : LLMGateway) (s : ContextState)
      (m : String) (h0 : List ChatMessage) (items : List NodeWithScore)
      (r : ChatResponse),
      retriever m = .ok items →
      chatModel (ContextChatEngine.systemMessage items ::
        (h0 ++ [⟨m, .user⟩])) = .ok r →
      (ContextChatEngine.achat retriever chatModel s m
          (some h0)).1.1.chatHistory =
        h0 ++ [⟨m, .user⟩] ++ [r.message] ∧
      (ContextChatEngine.achat retriever chatModel s m (some h0)).1.2 =
        h0 ++ [⟨m, .user⟩] ++ [r.message]) ∧
    (∀ (oracle : PredictOracle) (cmp : SimplePrompt) (qe : QueryEngine)
      (s : CondenseState) (m : String) (h0 : List ChatMessage)
      (cq : String) (resp : Response),
      CondenseQuestionChatEngine.acondenseQuestion oracle cmp h0 m = .ok cq →
      qe cq = .ok resp →
      (CondenseQuestionChatEngine.achat oracle cmp qe s m (some h0)).1.1 =
        s ∧
      (CondenseQuestionChatEngine.achat oracle cmp qe s m (some h0)).1.2 =
        h0 ++ [⟨m, .user⟩, ⟨resp.response, .assistant⟩]) := by
  refine ⟨?_, ?_, ?_⟩
  · intro llm s m h0 r h
    rw [simple_achat_some_ok llm s m h0 r h]
    exact ⟨rfl, rfl⟩
  · intro retriever chatModel s m h0 items r hr hc
    rw [context_achat_some_ok retriever chatModel s m h0 items r hr hc]
    exact ⟨rfl, rfl⟩
  · intro oracle cmp qe s m h0 cq resp hc hq
    rw [condense_achat_some_ok oracle cmp qe s h0 m cq resp hc hq]
    exact ⟨rfl, rfl⟩

/-- Witness for C10: the three strategies at concrete collaborators, an
owned history distinct from the supplied one. -/
theorem history_override_reference_semantics_witness :
    ((SimpleChatEngine.achat (constLLM "ok") ⟨[⟨"own", .user⟩]⟩ "hi"
        (some [])).1.1.chatHistory =
      [⟨"hi", .user⟩, ⟨"ok", .assistant⟩] ∧
     (SimpleChatEngine.achat (constLLM "ok") ⟨[⟨"own", .user⟩]⟩ "hi"
        (some [])).1.2 =
      [⟨"hi", .user⟩, ⟨"ok", .assistant⟩]) ∧
    ((ContextChatEngine.achat (constRetriever []) (constLLM "ok")
        ⟨[⟨"own", .user⟩]⟩ "hi" (some [])).1.1.chatHistory =
      [⟨"hi", .user⟩, ⟨"ok", .assistant⟩] ∧
     (ContextChatEngine.achat (constRetriever []) (constLLM "ok")
        ⟨[⟨"own", .user⟩]⟩ "hi" (some [])).1.2 =
      [⟨"hi", .user⟩, ⟨"ok", .assistant⟩]) ∧
    ((CondenseQuestionChatEngine.achat renderingOracle customPrompt
        (constQueryEngine ⟨"ok", []⟩) ⟨[⟨"own", .user⟩]⟩ "hi"
        (some [])).1.1 = ⟨[⟨"own", .user⟩]⟩ ∧
     (CondenseQuestionChatEngine.achat renderingOracle customPrompt
        (constQueryEngine ⟨"ok", []⟩) ⟨[⟨"own", .user⟩]⟩ "hi"
        (some [])).1.2 =
      [⟨"hi", .user⟩, ⟨"ok", .assistant⟩]) :=
  ⟨history_override_reference_semantics.1 (constLLM "ok") ⟨[⟨"own", .user⟩]⟩
      "hi" [] ⟨⟨"ok", .assistant⟩⟩ rfl,
   history_override_reference_semantics.2.1 (constRetriever [])
      (constLLM "ok") ⟨[⟨"own", .user⟩]⟩ "hi" [] [] ⟨⟨"ok", .assistant⟩⟩
      rfl rfl,
   history_override_reference_semantics.2.2 renderingOracle customPrompt
      (constQueryEngine ⟨"ok", []⟩) ⟨[⟨"own", .user⟩]⟩ "hi" [] "hi"
      ⟨"ok", []⟩ rfl rfl⟩

/-- C8: For every strategy and every state, `reset()` yields an empty
History, and `reset()` is idempotent. -/
theorem reset_empties_history_and_is_idempotent :
    (∀ s : SimpleState, (SimpleChatEngine.reset s).chatHistory = [] ∧
      SimpleChatEngine.reset (SimpleChatEngine.reset s) =
        SimpleChatEngine.reset s) ∧
    (∀ s : CondenseState,
      (CondenseQuestionChatEngine.reset s).chatHistory = [] ∧
      CondenseQuestionChatEngine.reset (CondenseQuestionChatEngine.reset s) =
        CondenseQuestionChatEngine.reset s) ∧
    (∀ s : ContextState, (ContextChatEngine.reset s).chatHistory = [] ∧
      ContextChatEngine.reset (ContextChatEngine.reset s) =
        ContextChatEngine.reset s) :=
  ⟨fun _ => ⟨rfl, rfl⟩, fun _ => ⟨rfl, rfl⟩, fun _ => ⟨rfl, rfl⟩⟩

/-- C9: In the Direct strategy, every successful `achat` returns a Response
whose source items are the empty sequence. -/
theorem direct_source_items_empty (llm : LLMGateway) (s : SimpleState)
    (m : String) (resp : Response)
    (h : (SimpleChatEngine.achat llm s m none).2 = .ok resp) :
    resp.sourceNodes = [] := by
  simp only [SimpleChatEngine.achat, Option.getD] at h
  cases hr : llm (s.chatHistory ++ [⟨m, .user⟩]) <;> rw [hr] at h
  · exact absurd h (by simp)
  · simp only [Except.ok.injEq] at h
    rw [← h]

/-- Witness for C9 at a concrete gateway and message. -/
theorem direct_source_items_empty_witness :
    Response.sourceNodes ⟨"Paris.", []⟩ = [] :=
  direct_source_items_empty (constLLM "Paris.") ⟨[]⟩ "What is the capital?"
    ⟨"Paris.", []⟩ rfl

end LlamaIndex
